import Mathlib

/-!
Shallow embedding of the ObjectMonitor accessor layer from
src/hotspot/share/runtime/objectMonitor.hpp and objectMonitor.inline.hpp.

Pointer values and machine words are modelled as Nat bit patterns
(0 encodes nullptr, 1 the ANONYMOUS_OWNER sentinel, 2 the DEFLATER_MARKER
sentinel, thread identity tokens are the int64 lock ids, asserted to be at
least 3 in the source).  The signed 32-bit counters (_contentions, _waiters)
are modelled as Int with explicit two's-complement wrapping where the code
performs arithmetic on them.  Functions whose bodies contain a fatal
assert() are modelled as Option-valued: none is the assertion failure.
Process-wide configuration flags (UseObjectMonitorTable, LockingMode) and
the external ThreadIdentifier::current() bound are passed as parameters.
-/

/-- DEFLATER_MARKER_VALUE from objectMonitor.hpp line 180: the owner-field
tombstone installed by async deflation. -/
def DEFLATER_MARKER_VALUE : Nat := 2

/-- ANONYMOUS_OWNER from objectMonitor.hpp line 184: the owner-field sentinel
meaning a lightweight-lock record holds true ownership. -/
def ANONYMOUS_OWNER : Nat := 1

/-- Two's-complement 64-bit bit pattern of a signed value, as produced by the
C cast intptr_t applied to an int inside ObjectMonitor::is_busy. -/
def u64 (i : Int) : Nat := (i % (2 : Int) ^ 64).toNat

/-- Two's-complement wrap-around of a signed 32-bit value, as performed by
Atomic add on the int _contentions field. -/
def wrap32 (i : Int) : Int := (i + 2 ^ 31) % 2 ^ 32 - 2 ^ 31

/-- WeakHandle (oops/weakHandle.hpp, external collaborator): is_null tests
the handle itself; peek returns the referent, 0 (nullptr) when the referent
has been collected. -/
structure WeakHandle where
  is_null : Bool
  peek : Nat
  deriving DecidableEq, Repr

/-- markWord (oops/markWord.hpp, external collaborator): a header word
wrapper; markWord(v).value() == v. -/
structure markWord where
  value : Nat
  deriving DecidableEq, Repr

/-- JavaThread (runtime/javaThread.hpp, external collaborator), reduced to
what the embedded functions consume: its lock id (identity token), lock-stack
membership (LM_LIGHTWEIGHT), and legacy stack-lock ownership. -/
structure JavaThread where
  lock_id : Nat
  lock_stack_contains : Nat → Bool
  is_lock_owned : Nat → Bool

/-- LockingMode (runtime/globals.hpp, external configuration). -/
inductive LockingModeT where
  | LM_MONITOR
  | LM_LEGACY
  | LM_LIGHTWEIGHT
  deriving DecidableEq, Repr

/-- The ObjectMonitor state, fields as declared in objectMonitor.hpp
lines 164-217 (padding, statics and perf counters omitted; _next_om,
_Responsible, _SpinDuration, _previous_owner_tid, _WaitSetLock kept out as
no embedded function reads them). -/
structure ObjectMonitor where
  _metadata : Nat
  _object : WeakHandle
  _owner : Nat
  _stack_locker : Nat
  _recursions : Int
  _EntryList : Nat
  _cxq : Nat
  _succ : Nat
  _contentions : Int
  _WaitSet : Nat
  _waiters : Int
  deriving Repr

/-- Range invariant of the machine representation: the two C int fields hold
signed 32-bit values. -/
def ObjectMonitor.Wf (m : ObjectMonitor) : Prop :=
  -(2 ^ 31) ≤ m._contentions ∧ m._contentions < 2 ^ 31 ∧
  -(2 ^ 31) ≤ m._waiters ∧ m._waiters < 2 ^ 31

instance (m : ObjectMonitor) : Decidable m.Wf := by
  unfold ObjectMonitor.Wf
  infer_instance

/-- ObjectMonitor::owner_for (inline.hpp 42-46): the identity token for a
thread is its lock id; the source asserts 3 <= tid < ThreadIdentifier
current value.  The assert is carried as a hypothesis where theorems need
it. -/
def ObjectMonitor.owner_for (thread : JavaThread) : Nat :=
  thread.lock_id

/-- ObjectMonitor::metadata (inline.hpp 61-63). -/
def ObjectMonitor.metadata (m : ObjectMonitor) : Nat :=
  m._metadata

/-- ObjectMonitor::set_metadata (inline.hpp 65-67). -/
def ObjectMonitor.set_metadata (m : ObjectMonitor) (value : Nat) : ObjectMonitor :=
  { m with _metadata := value }

/-- ObjectMonitor::header (inline.hpp 75-78); asserts that the
UseObjectMonitorTable configuration is off. -/
def ObjectMonitor.header (useObjectMonitorTable : Bool) (m : ObjectMonitor) :
    Option markWord :=
  if useObjectMonitorTable then none else some ⟨m.metadata⟩

/-- ObjectMonitor::set_header (inline.hpp 80-83); asserts that the
UseObjectMonitorTable configuration is off. -/
def ObjectMonitor.set_header (useObjectMonitorTable : Bool) (m : ObjectMonitor)
    (hdr : markWord) : Option ObjectMonitor :=
  if useObjectMonitorTable then none else some (m.set_metadata hdr.value)

/-- ObjectMonitor::hash (inline.hpp 85-88); asserts that the
UseObjectMonitorTable configuration is on. -/
def ObjectMonitor.hash (useObjectMonitorTable : Bool) (m : ObjectMonitor) :
    Option Nat :=
  if useObjectMonitorTable then some m.metadata else none

/-- ObjectMonitor::set_hash (inline.hpp 90-93); asserts that the
UseObjectMonitorTable configuration is on. -/
def ObjectMonitor.set_hash (useObjectMonitorTable : Bool) (m : ObjectMonitor)
    (h : Nat) : Option ObjectMonitor :=
  if useObjectMonitorTable then some (m.set_metadata h) else none

/-- ObjectMonitor::waiters (inline.hpp 95-97). -/
def ObjectMonitor.waiters (m : ObjectMonitor) : Int :=
  m._waiters

/-- ObjectMonitor::owner_raw (inline.hpp 110-112). -/
def ObjectMonitor.owner_raw (m : ObjectMonitor) : Nat :=
  m._owner

/-- ObjectMonitor::has_owner (inline.hpp 99-102). -/
def ObjectMonitor.has_owner (m : ObjectMonitor) : Bool :=
  m.owner_raw != 0 && m.owner_raw != DEFLATER_MARKER_VALUE

/-- ObjectMonitor::owner (inline.hpp 105-108): returns null when
DEFLATER_MARKER is observed. -/
def ObjectMonitor.owner (m : ObjectMonitor) : Nat :=
  if m.owner_raw != DEFLATER_MARKER_VALUE then m.owner_raw else 0

/-- ObjectMonitor::is_owner (objectMonitor.hpp 301). -/
def ObjectMonitor.is_owner (m : ObjectMonitor) (thread : JavaThread) : Bool :=
  m.owner == ObjectMonitor.owner_for thread

/-- ObjectMonitor::is_owner_anonymous (objectMonitor.hpp 302). -/
def ObjectMonitor.is_owner_anonymous (m : ObjectMonitor) : Bool :=
  m.owner_raw == ANONYMOUS_OWNER

/-- ObjectMonitor::stack_locker (inline.hpp 114-116). -/
def ObjectMonitor.stack_locker (m : ObjectMonitor) : Nat :=
  m._stack_locker

/-- ObjectMonitor::set_stack_locker (inline.hpp 118-120). -/
def ObjectMonitor.set_stack_locker (m : ObjectMonitor) (locker : Nat) :
    ObjectMonitor :=
  { m with _stack_locker := locker }

/-- ObjectMonitor::is_stack_locker (inline.hpp 122-124). -/
def ObjectMonitor.is_stack_locker (m : ObjectMonitor) (current : JavaThread) :
    Bool :=
  m.is_owner_anonymous && current.is_lock_owned m.stack_locker

/-- ObjectMonitor::owner_is_DEFLATER_MARKER (inline.hpp 129-131). -/
def ObjectMonitor.owner_is_DEFLATER_MARKER (m : ObjectMonitor) : Bool :=
  m.owner_raw == DEFLATER_MARKER_VALUE

/-- ObjectMonitor::contentions (inline.hpp 139-141). -/
def ObjectMonitor.contentions (m : ObjectMonitor) : Int :=
  m._contentions

/-- ObjectMonitor::is_being_async_deflated (inline.hpp 134-136). -/
def ObjectMonitor.is_being_async_deflated (m : ObjectMonitor) : Bool :=
  decide (m.contentions < 0)

/-- ObjectMonitor::add_to_contentions (inline.hpp 144-146): a wrapping
atomic add on the 32-bit int field. -/
def ObjectMonitor.add_to_contentions (m : ObjectMonitor) (value : Int) :
    ObjectMonitor :=
  { m with _contentions := wrap32 (m._contentions + value) }

/-- ObjectMonitor::is_busy (objectMonitor.hpp 281-292): bitwise OR of the
waiter count, the two entry-queue heads, the contention count when positive,
and the owner word unless it is the deflation tombstone; busy when the OR is
nonzero. -/
def ObjectMonitor.is_busy (m : ObjectMonitor) : Bool :=
  let base := u64 m._waiters ||| m._cxq ||| m._EntryList
  let cnts := m.contentions
  let withCnts := if 0 < cnts then base ||| u64 cnts else base
  let ret_code :=
    if !m.owner_is_DEFLATER_MARKER then withCnts ||| m.owner_raw else withCnts
  ret_code != 0

/-- ObjectMonitor::release_clear_owner (inline.hpp 154-166): asserts the
current owner word equals the identity token of the supplied prior owner,
then stores null with release ordering. -/
def ObjectMonitor.release_clear_owner (m : ObjectMonitor)
    (old_owner : JavaThread) : Option ObjectMonitor :=
  let old_value := ObjectMonitor.owner_for old_owner
  if m._owner = old_value then some { m with _owner := 0 } else none

/-- ObjectMonitor::set_owner_from_raw (inline.hpp 168-182): asserts the
current owner word is below the ThreadIdentifier bound and equals old_value,
then stores new_value. -/
def ObjectMonitor.set_owner_from_raw (tidCur : Int) (m : ObjectMonitor)
    (old_value new_value : Nat) : Option ObjectMonitor :=
  if (m._owner : Int) < tidCur ∧ m._owner = old_value then
    some { m with _owner := new_value }
  else none

/-- ObjectMonitor::set_owner_from (inline.hpp 184-186). -/
def ObjectMonitor.set_owner_from (tidCur : Int) (m : ObjectMonitor)
    (old_value : Nat) (current : JavaThread) : Option ObjectMonitor :=
  ObjectMonitor.set_owner_from_raw tidCur m old_value
    (ObjectMonitor.owner_for current)

/-- ObjectMonitor::try_set_owner_from_raw (inline.hpp 204-217): asserts
new_value is below the ThreadIdentifier bound, then a compare-and-swap on
the owner word returning its prior value. -/
def ObjectMonitor.try_set_owner_from_raw (tidCur : Int) (m : ObjectMonitor)
    (old_value new_value : Nat) : Option (Nat × ObjectMonitor) :=
  if (new_value : Int) < tidCur then
    some (m._owner,
      if m._owner = old_value then { m with _owner := new_value } else m)
  else none

/-- ObjectMonitor::try_set_owner_from (inline.hpp 219-221). -/
def ObjectMonitor.try_set_owner_from (tidCur : Int) (m : ObjectMonitor)
    (old_value : Nat) (current : JavaThread) : Option (Nat × ObjectMonitor) :=
  ObjectMonitor.try_set_owner_from_raw tidCur m old_value
    (ObjectMonitor.owner_for current)

/-- ObjectMonitor::object_peek (inline.hpp 246-251). -/
def ObjectMonitor.object_peek (m : ObjectMonitor) : Nat :=
  if m._object.is_null then 0 else m._object.peek

/-- ObjectMonitor::object_is_dead (inline.hpp 253-255). -/
def ObjectMonitor.object_is_dead (m : ObjectMonitor) : Bool :=
  m.object_peek == 0

/-- ObjectMonitor::object_refers_to (inline.hpp 257-262). -/
def ObjectMonitor.object_refers_to (m : ObjectMonitor) (obj : Nat) : Bool :=
  if m._object.is_null then false else m._object.peek == obj

/-- Modelled from the spec: ObjectMonitor::object() is declared in
objectMonitor.hpp line 354 but defined in objectMonitor.cpp, which is not
part of the two source files.  The spec describes the object field as a
weak, peekable reference to the locked object, so resolving it yields the
handle referent (null when the handle is null or the referent collected). -/
def ObjectMonitor.object (m : ObjectMonitor) : Nat :=
  if m._object.is_null then 0 else m._object.peek

/-- ObjectMonitor::is_entered (inline.hpp 48-59). -/
def ObjectMonitor.is_entered (lockingMode : LockingModeT) (m : ObjectMonitor)
    (current : JavaThread) : Bool :=
  if m.is_owner_anonymous then
    if lockingMode = LockingModeT.LM_LIGHTWEIGHT then
      current.lock_stack_contains m.object
    else
      current.is_lock_owned m.stack_locker
  else
    m.is_owner current

/-- ObjectMonitorContentionMark constructor (inline.hpp 237-240): the only
monitor effect is add_to_contentions(1). -/
def ObjectMonitorContentionMark_construct (monitor : ObjectMonitor) :
    ObjectMonitor :=
  monitor.add_to_contentions 1

/-- ObjectMonitorContentionMark destructor (inline.hpp 242-244): the only
monitor effect is add_to_contentions(-1). -/
def ObjectMonitorContentionMark_destruct (monitor : ObjectMonitor) :
    ObjectMonitor :=
  monitor.add_to_contentions (-1)

/-! Concrete states and threads used by witnesses and counterexamples. -/

/-- An idle monitor: unowned, empty queues, zero counters, dead handle. -/
def baseMonitor : ObjectMonitor :=
  { _metadata := 0, _object := ⟨true, 0⟩, _owner := 0, _stack_locker := 0,
    _recursions := 0, _EntryList := 0, _cxq := 0, _succ := 0,
    _contentions := 0, _WaitSet := 0, _waiters := 0 }

/-- A monitor mid-deflation: owner is the tombstone, contentions negative. -/
def mDeflating : ObjectMonitor :=
  { baseMonitor with _owner := DEFLATER_MARKER_VALUE, _contentions := -1 }

/-- A monitor owned by the thread with identity token 5. -/
def mOwned5 : ObjectMonitor :=
  { baseMonitor with _owner := 5 }

/-- A monitor whose contention counter sits at the largest int32 value. -/
def mMaxContentions : ObjectMonitor :=
  { baseMonitor with _contentions := 2 ^ 31 - 1 }

/-- A monitor with the anonymous-owner sentinel and a live object at 42. -/
def mAnon : ObjectMonitor :=
  { baseMonitor with _owner := ANONYMOUS_OWNER, _object := ⟨false, 42⟩ }

/-- A thread with identity token 5 holding no lightweight locks. -/
def tW5 : JavaThread :=
  ⟨5, fun _ => false, fun _ => false⟩

/-- A thread with identity token 7 whose lock stack contains object 42. -/
def tLS : JavaThread :=
  ⟨7, fun n => n == 42, fun _ => false⟩

/-! Helper lemmas. -/

theorem lor_zero_iff (a b : Nat) : a ||| b = 0 ↔ a = 0 ∧ b = 0 := by
  constructor
  · intro h
    constructor
    · apply Nat.eq_of_testBit_eq
      intro i
      have ht := congrArg (fun n => Nat.testBit n i) h
      simp [Nat.testBit_lor] at ht
      simp [ht.1]
    · apply Nat.eq_of_testBit_eq
      intro i
      have ht := congrArg (fun n => Nat.testBit n i) h
      simp [Nat.testBit_lor] at ht
      simp [ht.2]
  · rintro ⟨rfl, rfl⟩
    rfl

theorem u64_eq_zero {i : Int} (h1 : -(2 ^ 64) < i) (h2 : i < 2 ^ 64) :
    u64 i = 0 ↔ i = 0 := by
  unfold u64
  omega

/-! Claim theorems. -/

/-- C5: is_being_async_deflated() returns true exactly when the contention
counter read by contentions() is negative. -/
theorem c5_async_deflated_iff_negative (m : ObjectMonitor) :
    m.is_being_async_deflated = true ↔ m.contentions < 0 := by
  simp [ObjectMonitor.is_being_async_deflated]

/-- C7: object_is_dead() is true exactly when object_peek() is null, which
happens exactly when the weak handle is null or the referent was collected,
and object_refers_to(obj) is true exactly when the handle is non-null and
the peeked referent equals obj. -/
theorem c7_weak_handle_queries (m : ObjectMonitor) (obj : Nat) :
    (m.object_is_dead = true ↔ m.object_peek = 0) ∧
    (m.object_peek = 0 ↔ (m._object.is_null = true ∨ m._object.peek = 0)) ∧
    (m.object_refers_to obj = true ↔
      (m._object.is_null = false ∧ m._object.peek = obj)) := by
  unfold ObjectMonitor.object_is_dead ObjectMonitor.object_refers_to
    ObjectMonitor.object_peek
  cases hn : m._object.is_null <;> simp [hn]

/-- C6: with the object-monitor-table configuration off, set_header then
header round-trips and hash and set_hash are assertion failures; with it on,
set_hash then hash round-trips and header and set_header are assertion
failures. -/
theorem c6_metadata_two_configurations (m : ObjectMonitor) (hdr : markWord)
    (hv : Nat) :
    (ObjectMonitor.set_header false m hdr = some (m.set_metadata hdr.value) ∧
      ObjectMonitor.header false (m.set_metadata hdr.value) = some hdr ∧
      ObjectMonitor.hash false m = none ∧
      ObjectMonitor.set_hash false m hv = none) ∧
    (ObjectMonitor.set_hash true m hv = some (m.set_metadata hv) ∧
      ObjectMonitor.hash true (m.set_metadata hv) = some hv ∧
      ObjectMonitor.header true m = none ∧
      ObjectMonitor.set_header true m hdr = none) := by
  cases hdr
  simp [ObjectMonitor.set_header, ObjectMonitor.header, ObjectMonitor.hash,
    ObjectMonitor.set_hash, ObjectMonitor.set_metadata, ObjectMonitor.metadata]

/-- C2: owner() passes the raw owner word through except that the deflation
tombstone reads back as null; has_owner() holds exactly when the word is
neither null nor the tombstone; with the tombstone installed the monitor
reports itself unowned and is_owner is false for every thread whose identity
token satisfies the owner_for assertion. -/
theorem c2_owner_tombstone_views (m : ObjectMonitor) (t : JavaThread)
    (ht : 3 ≤ t.lock_id) :
    (m._owner ≠ DEFLATER_MARKER_VALUE → m.owner = m._owner) ∧
    (m._owner = DEFLATER_MARKER_VALUE → m.owner = 0) ∧
    (m.has_owner = true ↔ (m._owner ≠ 0 ∧ m._owner ≠ DEFLATER_MARKER_VALUE)) ∧
    (m._owner = DEFLATER_MARKER_VALUE →
      m.has_owner = false ∧ m.is_owner t = false) := by
  refine ⟨?_, ?_, ?_, ?_⟩
  · intro hne
    simp [ObjectMonitor.owner, ObjectMonitor.owner_raw, hne]
  · intro he
    simp [ObjectMonitor.owner, ObjectMonitor.owner_raw, he]
  · simp [ObjectMonitor.has_owner, ObjectMonitor.owner_raw,
      Bool.and_eq_true, bne_iff_ne]
  · intro he
    have h0 : (0 : Nat) ≠ t.lock_id := by omega
    constructor
    · simp [ObjectMonitor.has_owner, ObjectMonitor.owner_raw, he]
    · simp [ObjectMonitor.is_owner, ObjectMonitor.owner,
        ObjectMonitor.owner_raw, ObjectMonitor.owner_for, he, h0]

/-- C2 witness: at the concrete tombstoned monitor and thread token 5, the
monitor reads unowned and is_owner is false. -/
theorem c2_witness :
    mDeflating.owner = 0 ∧ mDeflating.has_owner = false ∧
      mDeflating.is_owner tW5 = false :=
  ⟨(c2_owner_tombstone_views mDeflating tW5 (by decide)).2.1 rfl,
   ((c2_owner_tombstone_views mDeflating tW5 (by decide)).2.2.2 rfl).1,
   ((c2_owner_tombstone_views mDeflating tW5 (by decide)).2.2.2 rfl).2⟩

/-- C9: a thread identity token admitted by the owner_for assertion is at
least 3 and therefore distinct from the reserved encodings null, ANONYMOUS
OWNER and DEFLATER_MARKER; the tombstone value 2 has a clear lowest bit and
a tombstoned monitor is never anonymous-owned. -/
theorem c9_owner_for_reserved_encodings (t : JavaThread) (ht : 3 ≤ t.lock_id)
    (m : ObjectMonitor) (hm : m._owner = DEFLATER_MARKER_VALUE) :
    3 ≤ ObjectMonitor.owner_for t ∧
    ObjectMonitor.owner_for t ≠ 0 ∧
    ObjectMonitor.owner_for t ≠ ANONYMOUS_OWNER ∧
    ObjectMonitor.owner_for t ≠ DEFLATER_MARKER_VALUE ∧
    DEFLATER_MARKER_VALUE &&& 1 = 0 ∧
    m.is_owner_anonymous = false := by
  unfold ObjectMonitor.owner_for ObjectMonitor.is_owner_anonymous
    ObjectMonitor.owner_raw
  refine ⟨ht, ?_, ?_, ?_, by decide, ?_⟩
  · omega
  · unfold ANONYMOUS_OWNER
    omega
  · unfold DEFLATER_MARKER_VALUE
    omega
  · simp [hm, DEFLATER_MARKER_VALUE, ANONYMOUS_OWNER]

/-- C9 witness: the theorem applied at thread token 5 and the concrete
tombstoned monitor. -/
theorem c9_witness :
    3 ≤ ObjectMonitor.owner_for tW5 ∧
    ObjectMonitor.owner_for tW5 ≠ 0 ∧
    ObjectMonitor.owner_for tW5 ≠ ANONYMOUS_OWNER ∧
    ObjectMonitor.owner_for tW5 ≠ DEFLATER_MARKER_VALUE ∧
    DEFLATER_MARKER_VALUE &&& 1 = 0 ∧
    mDeflating.is_owner_anonymous = false :=
  c9_owner_for_reserved_encodings tW5 (by decide) mDeflating (by decide)

/-- C3: the compare-and-swap try_set_owner_from_raw stores new_value exactly
when the prior owner word equals old_value, always returns the prior word,
and a failed attempt leaves the monitor state unchanged.  The hypothesis is
the assert that new_value is below the ThreadIdentifier bound. -/
theorem c3_try_set_owner_cas (tidCur : Int) (m : ObjectMonitor)
    (old_value new_value : Nat) (h : (new_value : Int) < tidCur) :
    (m._owner = old_value →
      ObjectMonitor.try_set_owner_from_raw tidCur m old_value new_value =
        some (m._owner, { m with _owner := new_value })) ∧
    (m._owner ≠ old_value →
      ObjectMonitor.try_set_owner_from_raw tidCur m old_value new_value =
        some (m._owner, m)) := by
  unfold ObjectMonitor.try_set_owner_from_raw
  constructor
  · intro he
    simp [h, he]
  · intro hne
    simp [h, hne]

/-- C3 witness: a successful CAS from the unowned concrete monitor to owner
token 5. -/
theorem c3_witness :
    ObjectMonitor.try_set_owner_from_raw 100 baseMonitor 0 5 =
      some (0, { baseMonitor with _owner := 5 }) :=
  (c3_try_set_owner_cas 100 baseMonitor 0 5 (by decide)).1 rfl

/-- C4: the unconditional transitions set_owner_from_raw and
release_clear_owner hit their fatal assertion when the current owner word
differs from the supplied expected prior value; under the matching
precondition set_owner_from_raw stores new_value and release_clear_owner
stores null. -/
theorem c4_guarded_owner_stores (tidCur : Int) (m : ObjectMonitor)
    (old_owner : JavaThread) (old_value new_value : Nat) :
    (m._owner ≠ old_value →
      ObjectMonitor.set_owner_from_raw tidCur m old_value new_value = none) ∧
    ((m._owner : Int) < tidCur → m._owner = old_value →
      ObjectMonitor.set_owner_from_raw tidCur m old_value new_value =
        some { m with _owner := new_value }) ∧
    (m._owner ≠ ObjectMonitor.owner_for old_owner →
      m.release_clear_owner old_owner = none) ∧
    (m._owner = ObjectMonitor.owner_for old_owner →
      m.release_clear_owner old_owner = some { m with _owner := 0 }) := by
  unfold ObjectMonitor.set_owner_from_raw ObjectMonitor.release_clear_owner
  refine ⟨?_, ?_, ?_, ?_⟩
  · intro hne
    simp [hne]
  · intro h1 h2
    have hcond : (m._owner : Int) < tidCur ∧ m._owner = old_value := ⟨h1, h2⟩
    rw [if_pos hcond]
  · intro hne
    simp [hne]
  · intro he
    simp [he]

/-- C4 witness: the two stores succeed at concrete matching states: the
unowned monitor takes owner 5, and the monitor owned by token 5 is cleared
by thread 5. -/
theorem c4_witness :
    ObjectMonitor.set_owner_from_raw 100 baseMonitor 0 5 =
      some { baseMonitor with _owner := 5 } ∧
    mOwned5.release_clear_owner tW5 = some { mOwned5 with _owner := 0 } :=
  ⟨(c4_guarded_owner_stores 100 baseMonitor tW5 0 5).2.1 (by decide) rfl,
   (c4_guarded_owner_stores 100 mOwned5 tW5 0 5).2.2.2 rfl⟩

/-- C8: is_entered holds exactly when either the owner word is the anonymous
sentinel and the thread passes the lightweight-path validation for the
configured locking mode, or the owner word equals the thread identity token;
the anonymous sentinel alone never counts as ownership.  The hypothesis is
the owner_for assertion on the thread token. -/
theorem c8_is_entered_cases (lockingMode : LockingModeT) (m : ObjectMonitor)
    (t : JavaThread) (ht : 3 ≤ t.lock_id) :
    ObjectMonitor.is_entered lockingMode m t = true ↔
      ((m._owner = ANONYMOUS_OWNER ∧
        ((lockingMode = LockingModeT.LM_LIGHTWEIGHT ∧
            t.lock_stack_contains m.object = true) ∨
         (lockingMode ≠ LockingModeT.LM_LIGHTWEIGHT ∧
            t.is_lock_owned m.stack_locker = true))) ∨
       m._owner = t.lock_id) := by
  have h1 : ¬ (ANONYMOUS_OWNER = t.lock_id) := by
    unfold ANONYMOUS_OWNER
    omega
  by_cases ha : m._owner = ANONYMOUS_OWNER
  · have hanon : m.is_owner_anonymous = true := by
      simp [ObjectMonitor.is_owner_anonymous, ObjectMonitor.owner_raw, ha]
    by_cases hmode : lockingMode = LockingModeT.LM_LIGHTWEIGHT
    · simp [ObjectMonitor.is_entered, hanon, hmode, ha, h1]
    · simp [ObjectMonitor.is_entered, hanon, hmode, ha, h1]
  · have hanon : m.is_owner_anonymous = false := by
      simp [ObjectMonitor.is_owner_anonymous, ObjectMonitor.owner_raw, ha]
    simp only [ObjectMonitor.is_entered, hanon, Bool.false_eq_true, if_false]
    unfold ObjectMonitor.is_owner ObjectMonitor.owner ObjectMonitor.owner_raw
      ObjectMonitor.owner_for
    by_cases h2 : m._owner = DEFLATER_MARKER_VALUE
    · have f0 : ¬ ((0 : Nat) = t.lock_id) := by omega
      have f2 : ¬ (DEFLATER_MARKER_VALUE = t.lock_id) := by
        unfold DEFLATER_MARKER_VALUE
        omega
      simp [h2, f0, f2, DEFLATER_MARKER_VALUE, ANONYMOUS_OWNER]
      omega
    · simp [h2, ha]

/-- C8 witness: under LM_LIGHTWEIGHT, the anonymous-owned concrete monitor
with live object 42 is entered by the thread whose lock stack contains 42. -/
theorem c8_witness :
    ObjectMonitor.is_entered LockingModeT.LM_LIGHTWEIGHT mAnon tLS = true :=
  (c8_is_entered_cases LockingModeT.LM_LIGHTWEIGHT mAnon tLS (by decide)).mpr
    (Or.inl ⟨rfl, Or.inl ⟨rfl, rfl⟩⟩)

/-- C1 (amended): is_busy() is false exactly when the owner word is null or
the deflation tombstone, both entry queues are empty, the waiter count is
zero, and the contention count is not positive; the source discards a
negative (deflation-marker) contention count instead of requiring zero. -/
theorem c1_is_busy_iff_idle (m : ObjectMonitor) (h : m.Wf) :
    m.is_busy = false ↔
      ((m._owner = 0 ∨ m._owner = DEFLATER_MARKER_VALUE) ∧
        m._cxq = 0 ∧ m._EntryList = 0 ∧ m._waiters = 0 ∧
        m.contentions ≤ 0) := by
  obtain ⟨hk1, hk2, hk3, hk4⟩ := h
  have hw : u64 m._waiters = 0 ↔ m._waiters = 0 :=
    u64_eq_zero (by omega) (by omega)
  have hcz : u64 m._contentions = 0 ↔ m._contentions = 0 :=
    u64_eq_zero (by omega) (by omega)
  by_cases hc : (0 : Int) < m._contentions <;>
    by_cases ho : m._owner = 2 <;>
      simp [ObjectMonitor.is_busy, ObjectMonitor.contentions,
        ObjectMonitor.owner_is_DEFLATER_MARKER, ObjectMonitor.owner_raw,
        DEFLATER_MARKER_VALUE, hc, ho, lor_zero_iff, hw, hcz] <;>
      omega

/-- C1 counterexample: at the concrete tombstoned monitor with contention
count -1 and all queues empty, is_busy() is false although contentions() is
not zero, refuting the claim that a zero contention count is necessary. -/
theorem c1_counterexample :
    ¬ (mDeflating.is_busy = false ↔
        ((mDeflating._owner = 0 ∨ mDeflating._owner = DEFLATER_MARKER_VALUE) ∧
          mDeflating._cxq = 0 ∧ mDeflating._EntryList = 0 ∧
          mDeflating._waiters = 0 ∧ mDeflating.contentions = 0)) := by
  decide

/-- C1 witness: the amended theorem applied at the concrete mid-deflation
monitor, whose negative contention count still reads as not busy. -/
theorem c1_witness : mDeflating.is_busy = false :=
  (c1_is_busy_iff_idle mDeflating (by decide)).mpr (by decide)

/-- C10 (amended): a construct-then-destroy cycle of the contention mark
returns the monitor to its exact starting state, construction touches no
field other than the contention counter, and provided the counter is below
the largest int32 value, construction adds exactly 1 and leaves the counter
strictly greater than its initial value. -/
theorem c10_contention_mark_roundtrip (m : ObjectMonitor) (h : m.Wf) :
    ObjectMonitorContentionMark_destruct
        (ObjectMonitorContentionMark_construct m) = m ∧
    ((ObjectMonitorContentionMark_construct m)._metadata = m._metadata ∧
      (ObjectMonitorContentionMark_construct m)._object = m._object ∧
      (ObjectMonitorContentionMark_construct m)._owner = m._owner ∧
      (ObjectMonitorContentionMark_construct m)._stack_locker =
        m._stack_locker ∧
      (ObjectMonitorContentionMark_construct m)._recursions = m._recursions ∧
      (ObjectMonitorContentionMark_construct m)._EntryList = m._EntryList ∧
      (ObjectMonitorContentionMark_construct m)._cxq = m._cxq ∧
      (ObjectMonitorContentionMark_construct m)._succ = m._succ ∧
      (ObjectMonitorContentionMark_construct m)._WaitSet = m._WaitSet ∧
      (ObjectMonitorContentionMark_construct m)._waiters = m._waiters) ∧
    (m._contentions < 2 ^ 31 - 1 →
      (ObjectMonitorContentionMark_construct m).contentions =
        m.contentions + 1 ∧
      m.contentions < (ObjectMonitorContentionMark_construct m).contentions) := by
  obtain ⟨f1, f2, f3, f4, f5, f6, f7, f8, f9, f10, f11⟩ := m
  obtain ⟨hk1, hk2, hk3, hk4⟩ := h
  refine ⟨?_, ?_, ?_⟩
  · dsimp only [ObjectMonitorContentionMark_destruct,
      ObjectMonitorContentionMark_construct, ObjectMonitor.add_to_contentions]
    have hrt : wrap32 (wrap32 (f9 + 1) + (-1)) = f9 := by
      unfold wrap32
      dsimp only at hk1 hk2
      omega
    rw [hrt]
  · exact ⟨rfl, rfl, rfl, rfl, rfl, rfl, rfl, rfl, rfl, rfl⟩
  · intro hlt
    dsimp only [ObjectMonitorContentionMark_construct,
      ObjectMonitor.add_to_contentions, ObjectMonitor.contentions] at *
    unfold wrap32
    constructor <;> omega

/-- C10 counterexample: at the concrete monitor whose contention counter is
the largest int32 value, constructing a contention mark wraps the counter to
the smallest int32 value, so it is neither the old count plus one nor
greater than it. -/
theorem c10_counterexample :
    ¬ ((ObjectMonitorContentionMark_construct mMaxContentions).contentions =
          mMaxContentions.contentions + 1 ∧
        mMaxContentions.contentions <
          (ObjectMonitorContentionMark_construct
              mMaxContentions).contentions) := by
  decide

/-- C10 witness: the amended theorem applied at the idle concrete monitor:
the cycle restores the state and construction adds exactly one. -/
theorem c10_witness :
    ObjectMonitorContentionMark_destruct
        (ObjectMonitorContentionMark_construct baseMonitor) = baseMonitor ∧
      (ObjectMonitorContentionMark_construct baseMonitor).contentions =
        baseMonitor.contentions + 1 :=
  ⟨(c10_contention_mark_roundtrip baseMonitor (by decide)).1,
   ((c10_contention_mark_roundtrip baseMonitor (by decide)).2.2 (by decide)).1⟩
